import Mathlib

/-!
# Verification of the avpro puppeteer backend (`src/backend/server.js`)

The server exposes two HTTP endpoints:

* `GET /api/status` — returns a constant JSON object.
* `POST /api/create` — drives a headless browser through a signup flow and
  classifies the outcome.

The `/api/create` handler is a linear sequence of awaited browser-library
calls guarded by an outer `try`/`catch`/`finally` plus one inner
`try`/`catch` around the profile (birth-date) inputs.  We embed it as a
deterministic interpreter parameterised by an `Env` describing what the
external world (the browser library and the target page) does at each
awaited step: every awaited library call is modelled as an
`Except String` outcome (`ok` = the promise resolved, `error m` = the
promise rejected with an error whose `.message` is `m`).  Synchronous
calls that cannot reject (`page.url()`, `page.frames()`, `browser.close()`
teardown, `res.json`) are modelled as plain data / state updates.

The interpreter state records the log array built by `addLog`, and event
counters (launch calls with their argument lists, `page.authenticate`
calls with credentials, submit clicks, `browser.close()` attempts, and
whether the outermost `catch` ran), so the claims about resource handling
and error routing can be stated.
-/

/-- JavaScript `haystack.includes(needle)` for strings: substring test. -/
def strIncludes (s pat : String) : Bool :=
  let sl := s.toList
  let pl := pat.toList
  (List.range (sl.length + 1)).any (fun i => pl.isPrefixOf (sl.drop i))

/-- Split a character list at every occurrence of `c`
(the groups between separators, in order). -/
def splitOnChar (c : Char) : List Char → List (List Char)
  | [] => [[]]
  | x :: xs =>
    match splitOnChar c xs with
    | [] => [[]]
    | g :: gs => if x = c then [] :: g :: gs else (x :: g) :: gs

/-- JavaScript `s.split(':')` (the only split the server performs). -/
def jsSplitColon (s : String) : List String :=
  (splitOnChar ':' s.toList).map (fun l => String.mk l)

/-- JavaScript truthiness of the optional `proxy` body field:
absent (`undefined`) and the empty string are falsy, any other string is
truthy. -/
def proxyTruthy : Option String → Bool
  | none => false
  | some s => !(s == "")

/-- The constant part of `launchArgs` (server.js lines 38–43). -/
def baseLaunchArgs : List String :=
  ["--no-sandbox", "--disable-setuid-sandbox", "--disable-dev-shm-usage",
   "--window-size=1280,800"]

/-- `launchArgs` as passed to `puppeteer.launch` (server.js lines 38–52):
when the proxy string is truthy and splits on `':'` into at least two
parts, `--proxy-server=<part0>:<part1>` is appended. -/
def launchArgsFor (proxy : Option String) : List String :=
  if proxyTruthy proxy then
    match proxy with
    | some p =>
      match jsSplitColon p with
      | host :: port :: _ =>
        baseLaunchArgs ++ ["--proxy-server=" ++ host ++ ":" ++ port]
      | _ => baseLaunchArgs
    | none => baseLaunchArgs
  else baseLaunchArgs

/-- The credentials passed to `page.authenticate` (server.js lines 62–67):
only when the proxy string is truthy and splits on `':'` into exactly four
parts; username is part 2, password is part 3. -/
def proxyAuth (proxy : Option String) : Option (String × String) :=
  if proxyTruthy proxy then
    match proxy with
    | some p =>
      match jsSplitColon p with
      | [_, _, u, pw] => some (u, pw)
      | _ => none
    | none => none
  else none

/-- The JSON body of `POST /api/create` (server.js line 25).  `gender` is
destructured but never used by the handler. -/
structure CreateRequest where
  email : String
  password : String
  birthYear : String
  birthMonth : String
  birthDay : String
  gender : String
  proxy : Option String
deriving Repr, DecidableEq

/-- One external-world behaviour of a `/api/create` run: the outcome of
every awaited browser-library call, the post-submit page URL, the error
banner query, and the URLs of the page's frames.  `timeAt n` is the value
`new Date().toLocaleTimeString()` returns at the `n`-th `addLog` call.
Teardown (`browser.close()`) and `res.json` are modelled as non-failing. -/
structure Env where
  timeAt : Nat → String
  launch : Except String Unit
  newPage : Except String Unit
  authenticate : Except String Unit
  gotoSignup : Except String Unit
  waitEmail : Except String Unit
  typeEmail : Except String Unit
  queryNextBtn : Except String Bool
  clickNext : Except String Unit
  waitPassword : Except String Unit
  typePassword : Except String Unit
  typeYear : Except String Unit
  selectMonth : Except String Unit
  typeDay : Except String Unit
  clickSubmit : Except String Unit
  pageUrl : String
  queryErrorEl : Except String Bool
  evalErrorText : Except String String
  frameUrls : List String

/-- A log record is the JS object literal
`{ message: msg, type, timestamp: ... }` (server.js line 30), embedded as
its ordered field list. -/
def mkLogRecord (msg ty ts : String) : List (String × String) :=
  [("message", msg), ("type", ty), ("timestamp", ts)]

/-- Interpreter state: the per-request `log` array, the number of
`addLog` calls so far (`tick`, used to index `timeAt`), and event records
for the resource-handling claims. -/
structure St where
  log : List (List (String × String)) := []
  tick : Nat := 0
  launchCalls : List (List String) := []
  browser : Bool := false
  authCalls : List (String × String) := []
  submitAttempts : Nat := 0
  closes : Nat := 0
  caught : Bool := false
deriving Repr, DecidableEq

/-- `addLog(msg, type)` (server.js lines 28–31): pushes one record onto
the log. -/
def addLog (env : Env) (s : St) (msg ty : String) : St :=
  { s with
    log := s.log ++ [mkLogRecord msg ty (env.timeAt s.tick)]
    tick := s.tick + 1 }

/-- The HTTP response sent by one of the four `res.json` sites of the
handler.  `error = none` models the absence of the `error` field in the
JSON body. -/
structure ApiResponse where
  status : Nat
  success : Bool
  logs : List (List (String × String))
  error : Option String
deriving Repr, DecidableEq

/-- `await` of a library call inside the outer `try`: on rejection the
exception (with the state at that moment) propagates to the outer
`catch`. -/
def att (e : Except String Unit) (s : St)
    (k : St → Except (String × St) (ApiResponse × St)) :
    Except (String × St) (ApiResponse × St) :=
  match e with
  | Except.ok _ => k s
  | Except.error m => Except.error (m, s)

/-- The error string of the CAPTCHA failure response (server.js line 138). -/
def captchaErrorMsg : String :=
  "Captcha Challenge. You need a residential proxy or manual intervention."

/-- The success test of line 123: the post-submit URL contains
`download`, `overview` or `account`. -/
def urlIndicatesSuccess (url : String) : Bool :=
  strIncludes url "download" || strIncludes url "overview" || strIncludes url "account"

/-- Line 134: some frame of the page has a URL containing `arkoselabs`. -/
def hasArkoseFrame (frameUrls : List String) : Bool :=
  frameUrls.any (fun u => strIncludes u "arkoselabs")

/-- Lines 121–143: inspect the post-submit URL; on success close the
browser and answer `{success: true, logs}`; otherwise query the error
banner, compute `errorText`, look for an `arkoselabs` frame and answer
the corresponding failure body.  `res.json` without `res.status` sends
HTTP 200. -/
def classify (env : Env) (s : St) :
    Except (String × St) (ApiResponse × St) :=
  if urlIndicatesSuccess env.pageUrl then
    let s := addLog env s "Account Successfully Created!" "success"
    let s := { s with closes := s.closes + 1 }
    Except.ok ({ status := 200, success := true, logs := s.log, error := none }, s)
  else
    match env.queryErrorEl with
    | Except.error m => Except.error (m, s)
    | Except.ok found =>
      match (if found then env.evalErrorText else Except.ok "Unknown Error") with
      | Except.error m => Except.error (m, s)
      | Except.ok errorText =>
        if hasArkoseFrame env.frameUrls then
          let s := addLog env s
            "FAILED: Captcha Challenge Triggered. Automation detected." "error"
          Except.ok ({ status := 200, success := false, logs := s.log,
                       error := some captchaErrorMsg }, s)
        else
          let s := addLog env s ("Failed: " ++ errorText) "error"
          Except.ok ({ status := 200, success := false, logs := s.log,
                       error := some errorText }, s)

/-- Lines 105–111: the inner `try { type year; select month; type day }
catch { addLog warning }`.  Never throws outward; its only observable
effect on failure is the warning log entry. -/
def profileStep (env : Env) (s : St) : St :=
  match env.typeYear with
  | Except.error _ => addLog env s "Profile inputs varying, attempting fallbacks..." "warning"
  | Except.ok _ =>
    match env.selectMonth with
    | Except.error _ => addLog env s "Profile inputs varying, attempting fallbacks..." "warning"
    | Except.ok _ =>
      match env.typeDay with
      | Except.error _ => addLog env s "Profile inputs varying, attempting fallbacks..." "warning"
      | Except.ok _ => s

/-- Lines 94–119: password entry, profile inputs, submit click,
post-submit wait, then classification. -/
def afterNext (env : Env) (s : St) :
    Except (String × St) (ApiResponse × St) :=
  att env.waitPassword s fun s =>
  att env.typePassword s fun s =>
  let s := addLog env s "Entered Password" "info"
  let s := addLog env s "Filling Profile details..." "info"
  let s := profileStep env s
  let s := addLog env s "Clicking Submit..." "network"
  let s := { s with submitAttempts := s.submitAttempts + 1 }
  att env.clickSubmit s fun s =>
  let s := addLog env s "Verifying submission..." "info"
  classify env s

/-- Lines 69–92: navigation, email entry, and the optional "Next"
button click. -/
def mainFlow (env : Env) (s : St) :
    Except (String × St) (ApiResponse × St) :=
  let s := addLog env s "Navigating to Spotify Signup..." "network"
  att env.gotoSignup s fun s =>
  let s := addLog env s "Waiting for form..." "info"
  att env.waitEmail s fun s =>
  att env.typeEmail s fun s =>
  let s := addLog env s "Entered Email" "info"
  match env.queryNextBtn with
  | Except.error m => Except.error (m, s)
  | Except.ok true => att env.clickNext s fun s => afterNext env s
  | Except.ok false => afterNext env s

/-- Lines 61–67: `page.authenticate` is called exactly when the proxy
string is truthy and splits into four parts. -/
def authPhase (env : Env) (req : CreateRequest) (s : St) :
    Except (String × St) (ApiResponse × St) :=
  match proxyAuth req.proxy with
  | some (u, pw) =>
    let s := { s with authCalls := s.authCalls ++ [(u, pw)] }
    att env.authenticate s fun s => mainFlow env s
  | none => mainFlow env s

/-- The body of the outer `try` (lines 35–143): initial log entry, launch
arguments, `puppeteer.launch`, `browser.newPage`, then the rest of the
flow.  `browser` becomes non-null only after `launch` resolves. -/
def tryBody (env : Env) (req : CreateRequest) (s0 : St) :
    Except (String × St) (ApiResponse × St) :=
  let s := addLog env s0 ("Initiating Browser for: " ++ req.email) "info"
  let s := { s with launchCalls := s.launchCalls ++ [launchArgsFor req.proxy] }
  att env.launch s fun s =>
  let s := { s with browser := true }
  att env.newPage s fun s =>
  authPhase env req s

/-- `if (browser) await browser.close()` — one close attempt when the
browser was launched. -/
def finallyClose (s : St) : St :=
  if s.browser then { s with closes := s.closes + 1 } else s

/-- The `catch` block (lines 145–148) followed by the `finally` block
(lines 149–151): log the critical error, close the browser if it was
launched, send `res.status(500).json({success: false, logs, error:
error.message})`, then close again from `finally`. -/
def catchBlock (env : Env) (m : String) (s0 : St) : ApiResponse × St :=
  let s1 := { s0 with caught := true }
  let s2 := addLog env s1 ("Critical Error: " ++ m) "error"
  let s3 := finallyClose s2
  ({ status := 500, success := false, logs := s3.log, error := some m },
   finallyClose s3)

/-- The whole `POST /api/create` handler (lines 24–152): run the `try`
body; on an escaped exception run the `catch` block; in both cases run
the `finally` block (conditional close).  Returns the HTTP response
together with the final interpreter state. -/
def runCreate (env : Env) (req : CreateRequest) : ApiResponse × St :=
  match tryBody env req {} with
  | Except.ok (resp, s) => (resp, finallyClose s)
  | Except.error (m, s) => catchBlock env m s

/-- `GET /api/status` (server.js lines 20–22): the constant JSON body,
independent of the request. -/
def handleStatus (_req : List (String × String)) : List (String × String) :=
  [("status", "online"), ("mode", "puppeteer"), ("version", "5.0.0")]

/-! ### Derived characterisations used in the theorem statements -/

/-- The `errorText` the handler computes on the failure path (lines
129–130): the text content of the first matching error element, or
`"Unknown Error"` when no such element exists.  (The cases where the
banner query or the text evaluation rejects never reach a classified
response, so their value here is irrelevant.) -/
def classifiedErrText (env : Env) : String :=
  match env.queryErrorEl with
  | Except.ok true =>
    match env.evalErrorText with
    | Except.ok t => t
    | Except.error _ => "Unknown Error"
  | _ => "Unknown Error"

/-- The error string of a classified (non-exception) failure response:
the CAPTCHA message when an `arkoselabs` frame is present, the banner
text otherwise. -/
def classifiedFailureMsg (env : Env) : String :=
  if hasArkoseFrame env.frameUrls then captchaErrorMsg else classifiedErrText env

/-- The list of `page.authenticate` calls the handler performs for a
given proxy field (zero or one). -/
def authList (proxy : Option String) : List (String × String) :=
  match proxyAuth proxy with
  | some c => [c]
  | none => []

/-- The message of the exception escaping to the outer `catch`, when one
does. -/
def escapedMsg (env : Env) (req : CreateRequest) : Option String :=
  match tryBody env req {} with
  | Except.error (m, _) => some m
  | Except.ok _ => none

/-- Whether `puppeteer.launch` resolves (so `browser` becomes
non-null). -/
def launchOk (env : Env) : Bool :=
  match env.launch with
  | Except.ok _ => true
  | Except.error _ => false

/-- Whether `browser.newPage()` resolves. -/
def newPageOk (env : Env) : Bool :=
  match env.newPage with
  | Except.ok _ => true
  | Except.error _ => false

/-- A log list is well-formed: its `i`-th record is a
`{message, type, timestamp}` object whose timestamp was taken at the
`i`-th `addLog` call — i.e. the array lists the records in the order they
were appended. -/
def goodLog (env : Env) (l : List (List (String × String))) : Prop :=
  ∀ i, i < l.length → ∃ msg ty, l[i]? = some (mkLogRecord msg ty (env.timeAt i))

/-- Invariant tying the `addLog` counter to the log length. -/
def logsTicked (env : Env) (s : St) : Prop :=
  s.tick = s.log.length ∧ goodLog env s.log

/-- Frame conditions common to the interpreter phases: launch calls, the
browser handle and the caught flag are untouched; the submit and close
counters only grow; the log only grows at the end and stays
well-formed. -/
def frameExt (env : Env) (s s' : St) : Prop :=
  s'.launchCalls = s.launchCalls ∧ s'.browser = s.browser ∧ s'.caught = s.caught ∧
  s.submitAttempts ≤ s'.submitAttempts ∧ s.closes ≤ s'.closes ∧
  (∃ t, s'.log = s.log ++ t) ∧ (logsTicked env s → logsTicked env s')

/-- Frame conditions for the phases after `page.authenticate`, which in
addition never touch the authenticate-call record. -/
def stepExt (env : Env) (s s' : St) : Prop :=
  frameExt env s s' ∧ s'.authCalls = s.authCalls

/-! ### Concrete behaviours used by the witnesses and counterexamples -/

/-- Shorthand for a resolved promise. -/
def okU : Except String Unit := Except.ok ()

/-- A run in which every library call resolves, the post-submit URL is
the download page, no error banner and no CAPTCHA frame are present. -/
def envHappy : Env :=
  { timeAt := fun n => Nat.repr n
    launch := okU, newPage := okU, authenticate := okU, gotoSignup := okU
    waitEmail := okU, typeEmail := okU, queryNextBtn := Except.ok true
    clickNext := okU, waitPassword := okU, typePassword := okU
    typeYear := okU, selectMonth := okU, typeDay := okU, clickSubmit := okU
    pageUrl := "https://www.spotify.com/us/download"
    queryErrorEl := Except.ok false
    evalErrorText := Except.ok "text"
    frameUrls := ["https://open.spotify.com/embed"] }

/-- Like `envHappy` but the page stays on the signup URL, shows an error
banner and embeds an `arkoselabs` frame. -/
def envCaptcha : Env :=
  { envHappy with
    pageUrl := "https://www.spotify.com/signup"
    queryErrorEl := Except.ok true
    evalErrorText := Except.ok "Something went wrong."
    frameUrls := ["https://client-api.arkoselabs.com/fc"] }

/-- Like `envHappy` but filling the birth-year input rejects (the inner
`try`/`catch` case). -/
def envProfileFail : Env :=
  { envHappy with typeYear := Except.error "Selector timeout: input#year" }

/-- Like `envHappy` but `page.goto` rejects (an exception escaping to the
outer `catch`). -/
def envGotoFail : Env :=
  { envHappy with gotoSignup := Except.error "net::ERR_TIMED_OUT" }

/-- A request with a four-part authenticated proxy. -/
def reqAuthProxy : CreateRequest :=
  { email := "user@example.com", password := "hunter2", birthYear := "1999"
    birthMonth := "04", birthDay := "12", gender := "male"
    proxy := some "10.0.0.1:8080:alice:secret" }

/-- A request with a two-part proxy. -/
def reqPlainProxy : CreateRequest :=
  { reqAuthProxy with proxy := some "10.0.0.1:8080" }

/-- A request with a three-part proxy. -/
def reqThreeProxy : CreateRequest :=
  { reqAuthProxy with proxy := some "10.0.0.1:8080:alice" }

/-- A request with no proxy field. -/
def reqNoProxy : CreateRequest :=
  { reqAuthProxy with proxy := none }

/-- Properties shared by every classified (non-exception) response of
the handler. -/
def respSpec (env : Env) (r : ApiResponse) : Prop :=
  r.status = 200 ∧ (r.success = true ↔ urlIndicatesSuccess env.pageUrl = true) ∧
  (r.success = true → r.error = none) ∧
  (r.success = false → r.error = some (classifiedFailureMsg env))

/-- What a phase of the `try` body (from navigation onwards) can do,
relative to its entry state `s`: either it throws (propagating the
message and the state at the throw) or it produces a classified response
whose `logs` field is the log at response time. -/
def phaseSpec (env : Env) (s : St)
    (e : Except (String × St) (ApiResponse × St)) : Prop :=
  (∃ m s', e = Except.error (m, s') ∧ stepExt env s s' ∧ s'.closes = s.closes) ∨
  (∃ r s', e = Except.ok (r, s') ∧ r.logs = s'.log ∧ respSpec env r ∧
    stepExt env s s')

/-- Like `phaseSpec`, for the phase that may also record a
`page.authenticate` call. -/
def authPhaseSpec (env : Env) (req : CreateRequest) (s : St)
    (e : Except (String × St) (ApiResponse × St)) : Prop :=
  (∃ m s', e = Except.error (m, s') ∧ frameExt env s s' ∧ s'.closes = s.closes ∧
    s'.authCalls = s.authCalls ++ authList req.proxy) ∨
  (∃ r s', e = Except.ok (r, s') ∧ r.logs = s'.log ∧ respSpec env r ∧
    frameExt env s s' ∧ s'.authCalls = s.authCalls ++ authList req.proxy)

/-! ### Projection lemmas -/

@[simp] theorem addLog_log (env : Env) (s : St) (msg ty : String) :
    (addLog env s msg ty).log = s.log ++ [mkLogRecord msg ty (env.timeAt s.tick)] := rfl

@[simp] theorem addLog_tick (env : Env) (s : St) (msg ty : String) :
    (addLog env s msg ty).tick = s.tick + 1 := rfl

@[simp] theorem addLog_launchCalls (env : Env) (s : St) (msg ty : String) :
    (addLog env s msg ty).launchCalls = s.launchCalls := rfl

@[simp] theorem addLog_browser (env : Env) (s : St) (msg ty : String) :
    (addLog env s msg ty).browser = s.browser := rfl

@[simp] theorem addLog_authCalls (env : Env) (s : St) (msg ty : String) :
    (addLog env s msg ty).authCalls = s.authCalls := rfl

@[simp] theorem addLog_submitAttempts (env : Env) (s : St) (msg ty : String) :
    (addLog env s msg ty).submitAttempts = s.submitAttempts := rfl

@[simp] theorem addLog_closes (env : Env) (s : St) (msg ty : String) :
    (addLog env s msg ty).closes = s.closes := rfl

@[simp] theorem addLog_caught (env : Env) (s : St) (msg ty : String) :
    (addLog env s msg ty).caught = s.caught := rfl

@[simp] theorem finallyClose_log (s : St) : (finallyClose s).log = s.log := by
  unfold finallyClose; split <;> rfl

@[simp] theorem finallyClose_tick (s : St) : (finallyClose s).tick = s.tick := by
  unfold finallyClose; split <;> rfl

@[simp] theorem finallyClose_launchCalls (s : St) :
    (finallyClose s).launchCalls = s.launchCalls := by
  unfold finallyClose; split <;> rfl

@[simp] theorem finallyClose_browser (s : St) : (finallyClose s).browser = s.browser := by
  unfold finallyClose; split <;> rfl

@[simp] theorem finallyClose_authCalls (s : St) :
    (finallyClose s).authCalls = s.authCalls := by
  unfold finallyClose; split <;> rfl

@[simp] theorem finallyClose_submitAttempts (s : St) :
    (finallyClose s).submitAttempts = s.submitAttempts := by
  unfold finallyClose; split <;> rfl

@[simp] theorem finallyClose_caught (s : St) : (finallyClose s).caught = s.caught := by
  unfold finallyClose; split <;> rfl

theorem finallyClose_closes (s : St) :
    (finallyClose s).closes = if s.browser then s.closes + 1 else s.closes := by
  unfold finallyClose; split <;> simp_all

/-! ### Log well-formedness -/

theorem logsTicked_init (env : Env) : logsTicked env {} := by
  constructor
  · rfl
  · intro i hi
    simp [St.log] at hi

theorem logsTicked_addLog (env : Env) (s : St) (msg ty : String)
    (h : logsTicked env s) : logsTicked env (addLog env s msg ty) := by
  obtain ⟨ht, hg⟩ := h
  refine ⟨by simp [ht], ?_⟩
  intro i hi
  simp only [addLog_log, List.length_append, List.length_singleton] at hi
  rcases Nat.lt_or_ge i s.log.length with hlt | hge
  · obtain ⟨m2, t2, hm⟩ := hg i hlt
    refine ⟨m2, t2, ?_⟩
    rw [addLog_log, List.getElem?_append_left hlt]
    exact hm
  · have hieq : i = s.log.length := by omega
    subst hieq
    refine ⟨msg, ty, ?_⟩
    rw [addLog_log, ht, List.getElem?_concat_length]

/-! ### Extension-predicate basics -/

theorem frameExt_refl (env : Env) (s : St) : frameExt env s s :=
  ⟨rfl, rfl, rfl, le_refl _, le_refl _, ⟨[], by simp⟩, fun h => h⟩

theorem frameExt_trans {env : Env} {s1 s2 s3 : St}
    (h1 : frameExt env s1 s2) (h2 : frameExt env s2 s3) : frameExt env s1 s3 := by
  obtain ⟨a1, b1, c1, d1, e1, ⟨t1, f1⟩, g1⟩ := h1
  obtain ⟨a2, b2, c2, d2, e2, ⟨t2, f2⟩, g2⟩ := h2
  exact ⟨a2.trans a1, b2.trans b1, c2.trans c1, d1.trans d2, e1.trans e2,
    ⟨t1 ++ t2, by rw [f2, f1, List.append_assoc]⟩, fun h => g2 (g1 h)⟩

theorem stepExt_refl (env : Env) (s : St) : stepExt env s s :=
  ⟨frameExt_refl env s, rfl⟩

theorem stepExt_trans {env : Env} {s1 s2 s3 : St}
    (h1 : stepExt env s1 s2) (h2 : stepExt env s2 s3) : stepExt env s1 s3 :=
  ⟨frameExt_trans h1.1 h2.1, h2.2.trans h1.2⟩

theorem stepExt_addLog (env : Env) (s : St) (msg ty : String) :
    stepExt env s (addLog env s msg ty) :=
  ⟨⟨rfl, rfl, rfl, le_refl _, le_refl _, ⟨_, rfl⟩, logsTicked_addLog env s msg ty⟩, rfl⟩

theorem stepExt_closeInc (env : Env) (s : St) :
    stepExt env s { s with closes := s.closes + 1 } :=
  ⟨⟨rfl, rfl, rfl, le_refl _, Nat.le_succ _, ⟨[], by simp⟩, fun h => h⟩, rfl⟩

theorem stepExt_submitInc (env : Env) (s : St) :
    stepExt env s { s with submitAttempts := s.submitAttempts + 1 } :=
  ⟨⟨rfl, rfl, rfl, Nat.le_succ _, le_refl _, ⟨[], by simp⟩, fun h => h⟩, rfl⟩

theorem profileStep_ext (env : Env) (s : St) :
    stepExt env s (profileStep env s) ∧ (profileStep env s).closes = s.closes := by
  unfold profileStep
  split
  · exact ⟨stepExt_addLog env s _ _, rfl⟩
  · split
    · exact ⟨stepExt_addLog env s _ _, rfl⟩
    · split
      · exact ⟨stepExt_addLog env s _ _, rfl⟩
      · exact ⟨stepExt_refl env s, rfl⟩

@[simp] theorem profileStep_closes (env : Env) (s : St) :
    (profileStep env s).closes = s.closes := (profileStep_ext env s).2

/-! ### Phase specifications -/

theorem classify_spec (env : Env) (s : St) : phaseSpec env s (classify env s) := by
  unfold phaseSpec respSpec
  rcases hu : urlIndicatesSuccess env.pageUrl with _ | _
  · rcases hq : env.queryErrorEl with mq | found
    · left
      exact ⟨mq, s, by unfold classify; rw [hu, hq]; rfl, stepExt_refl env s, rfl⟩
    · cases found
      · rcases ha : hasArkoseFrame env.frameUrls with _ | _
        · right
          refine ⟨_, _, by unfold classify; rw [hu, hq]; rw [ha]; rfl, ?_, ⟨?_, ?_, ?_, ?_⟩, ?_⟩
          · rfl
          · rfl
          · simp [hu]
          · simp
          · intro _
            simp [classifiedFailureMsg, ha, classifiedErrText, hq]
          · exact stepExt_addLog env s _ _
        · right
          refine ⟨_, _, by unfold classify; rw [hu, hq]; rw [ha]; rfl, ?_, ⟨?_, ?_, ?_, ?_⟩, ?_⟩
          · rfl
          · rfl
          · simp [hu]
          · simp
          · intro _
            simp [classifiedFailureMsg, ha]
          · exact stepExt_addLog env s _ _
      · rcases he : env.evalErrorText with me | t
        · left
          exact ⟨me, s, by unfold classify; rw [hu, hq]; rw [he]; rfl, stepExt_refl env s, rfl⟩
        · rcases ha : hasArkoseFrame env.frameUrls with _ | _
          · right
            refine ⟨_, _, by unfold classify; rw [hu, hq]; rw [he, ha]; rfl,
              ?_, ⟨?_, ?_, ?_, ?_⟩, ?_⟩
            · rfl
            · rfl
            · simp [hu]
            · simp
            · intro _
              simp [classifiedFailureMsg, ha, classifiedErrText, hq, he]
            · exact stepExt_addLog env s _ _
          · right
            refine ⟨_, _, by unfold classify; rw [hu, hq]; rw [he, ha]; rfl,
              ?_, ⟨?_, ?_, ?_, ?_⟩, ?_⟩
            · rfl
            · rfl
            · simp [hu]
            · simp
            · intro _
              simp [classifiedFailureMsg, ha]
            · exact stepExt_addLog env s _ _
  · right
    refine ⟨_, _, by unfold classify; rw [hu]; rfl, ?_, ⟨?_, ?_, ?_, ?_⟩, ?_⟩
    · rfl
    · rfl
    · simp [hu]
    · exact fun _ => rfl
    · simp
    · exact stepExt_trans (stepExt_addLog env s _ _) (stepExt_closeInc env _)

theorem phaseSpec_inl {env : Env} {s : St}
    {e : Except (String × St) (ApiResponse × St)} (m : String) (s' : St)
    (he : e = Except.error (m, s')) (hext : stepExt env s s')
    (hc : s'.closes = s.closes) : phaseSpec env s e :=
  Or.inl ⟨m, s', he, hext, hc⟩

theorem spec_compose {env : Env} {s x : St}
    {e : Except (String × St) (ApiResponse × St)}
    (hx : stepExt env s x) (hcl : x.closes = s.closes)
    (h : phaseSpec env x e) : phaseSpec env s e := by
  rcases h with ⟨m, s', he, hext, hc⟩ | ⟨r, s', he, hlogs, hresp, hext⟩
  · exact Or.inl ⟨m, s', he, stepExt_trans hx hext, by rw [hc, hcl]⟩
  · exact Or.inr ⟨r, s', he, hlogs, hresp, stepExt_trans hx hext⟩

theorem afterNext_spec (env : Env) (s : St) : phaseSpec env s (afterNext env s) := by
  unfold afterNext att
  rcases hwp : env.waitPassword with m | u
  · exact phaseSpec_inl m s rfl (stepExt_refl env s) rfl
  · rcases htp : env.typePassword with m | u2
    · exact phaseSpec_inl m s rfl (stepExt_refl env s) rfl
    · rcases hcs : env.clickSubmit with m | u3
      · refine phaseSpec_inl m _ rfl ?_ ?_
        · exact stepExt_trans (stepExt_addLog env s _ _)
            (stepExt_trans (stepExt_addLog env _ _ _)
              (stepExt_trans (profileStep_ext env _).1
                (stepExt_trans (stepExt_addLog env _ _ _) (stepExt_submitInc env _))))
        · simp
      · refine spec_compose ?_ ?_ (classify_spec env _)
        · exact stepExt_trans (stepExt_addLog env s _ _)
            (stepExt_trans (stepExt_addLog env _ _ _)
              (stepExt_trans (profileStep_ext env _).1
                (stepExt_trans (stepExt_addLog env _ _ _)
                  (stepExt_trans (stepExt_submitInc env _) (stepExt_addLog env _ _ _)))))
        · simp

theorem mainFlow_spec (env : Env) (s : St) : phaseSpec env s (mainFlow env s) := by
  unfold mainFlow att
  rcases hgo : env.gotoSignup with m | u
  · exact phaseSpec_inl m _ rfl (stepExt_addLog env s _ _) (by simp)
  · rcases hwe : env.waitEmail with m | u2
    · exact phaseSpec_inl m _ rfl
        (stepExt_trans (stepExt_addLog env s _ _) (stepExt_addLog env _ _ _)) (by simp)
    · rcases hte : env.typeEmail with m | u3
      · exact phaseSpec_inl m _ rfl
          (stepExt_trans (stepExt_addLog env s _ _) (stepExt_addLog env _ _ _)) (by simp)
      · rcases hnb : env.queryNextBtn with m | b
        · exact phaseSpec_inl m _ rfl
            (stepExt_trans (stepExt_addLog env s _ _)
              (stepExt_trans (stepExt_addLog env _ _ _) (stepExt_addLog env _ _ _)))
            (by simp)
        · cases b
          · exact spec_compose
              (stepExt_trans (stepExt_addLog env s _ _)
                (stepExt_trans (stepExt_addLog env _ _ _) (stepExt_addLog env _ _ _)))
              (by simp) (afterNext_spec env _)
          · rcases hcn : env.clickNext with m | u4
            · exact phaseSpec_inl m _ rfl
                (stepExt_trans (stepExt_addLog env s _ _)
                  (stepExt_trans (stepExt_addLog env _ _ _) (stepExt_addLog env _ _ _)))
                (by simp)
            · exact spec_compose
                (stepExt_trans (stepExt_addLog env s _ _)
                  (stepExt_trans (stepExt_addLog env _ _ _) (stepExt_addLog env _ _ _)))
                (by simp) (afterNext_spec env _)

theorem frameExt_authAppend (env : Env) (s : St) (l : List (String × String)) :
    frameExt env s { s with authCalls := s.authCalls ++ l } :=
  ⟨rfl, rfl, rfl, le_refl _, le_refl _, ⟨[], by simp⟩, fun h => h⟩

theorem authSpec_compose {env : Env} {req : CreateRequest} {s x : St}
    {e : Except (String × St) (ApiResponse × St)}
    (hfx : frameExt env s x) (hclo : x.closes = s.closes)
    (hax : x.authCalls = s.authCalls ++ authList req.proxy)
    (h : phaseSpec env x e) :
    authPhaseSpec env req s e := by
  rcases h with ⟨m, s', he, hext, hc⟩ | ⟨r, s', he, hlogs, hresp, hext⟩
  · exact Or.inl ⟨m, s', he, frameExt_trans hfx hext.1, by rw [hc, hclo],
      by rw [hext.2, hax]⟩
  · exact Or.inr ⟨r, s', he, hlogs, hresp, frameExt_trans hfx hext.1,
      by rw [hext.2, hax]⟩

theorem authPhase_spec (env : Env) (req : CreateRequest) (s : St) :
    authPhaseSpec env req s (authPhase env req s) := by
  unfold authPhase att
  rcases hpa : proxyAuth req.proxy with _ | ⟨u, pw⟩
  · exact authSpec_compose (frameExt_refl env s) rfl (by simp [authList, hpa])
      (mainFlow_spec env s)
  · rcases hau : env.authenticate with m | uu
    · exact Or.inl ⟨m, _, rfl, frameExt_authAppend env s _, rfl,
        by simp [authList, hpa]⟩
    · exact authSpec_compose (frameExt_authAppend env s _) rfl
        (by simp [authList, hpa]) (mainFlow_spec env _)

theorem tryBody_assemble {env : Env} {req : CreateRequest} {x : St}
    {e : Except (String × St) (ApiResponse × St)}
    (h : authPhaseSpec env req x e)
    (hlc : x.launchCalls = [launchArgsFor req.proxy]) (hcau : x.caught = false)
    (hclo : x.closes = 0) (hbr : x.browser = true)
    (hlau : launchOk env = true) (hac : x.authCalls = [])
    (hlt : logsTicked env x) :
    (∃ m s', e = Except.error (m, s') ∧
      s'.launchCalls = [launchArgsFor req.proxy] ∧ s'.caught = false ∧
      s'.closes = 0 ∧ s'.browser = launchOk env ∧
      (launchOk env = true → newPageOk env = true →
        s'.authCalls = authList req.proxy) ∧
      (s'.authCalls = [] ∨ s'.authCalls = authList req.proxy) ∧
      logsTicked env s') ∨
    (∃ r s', e = Except.ok (r, s') ∧ r.logs = s'.log ∧ respSpec env r ∧
      s'.launchCalls = [launchArgsFor req.proxy] ∧ s'.caught = false ∧
      s'.browser = true ∧ launchOk env = true ∧
      s'.authCalls = authList req.proxy ∧ logsTicked env s') := by
  rcases h with ⟨m, s', he, hf, hc, ha⟩ | ⟨r, s', he, hlogs, hresp, hf, ha⟩
  · obtain ⟨f1, f2, f3, f4, f5, f6, f7⟩ := hf
    refine Or.inl ⟨m, s', he, by rw [f1, hlc], by rw [f3, hcau], by rw [hc, hclo],
      ?_, ?_, ?_, f7 hlt⟩
    · rw [f2, hbr, hlau]
    · intro _ _
      rw [ha, hac]
      simp
    · refine Or.inr ?_
      rw [ha, hac]
      simp
  · obtain ⟨f1, f2, f3, f4, f5, f6, f7⟩ := hf
    exact Or.inr ⟨r, s', he, hlogs, hresp, by rw [f1, hlc], by rw [f3, hcau],
      by rw [f2, hbr], hlau, by rw [ha, hac]; simp, f7 hlt⟩

theorem tryBody_spec (env : Env) (req : CreateRequest) :
    (∃ m s', tryBody env req {} = Except.error (m, s') ∧
      s'.launchCalls = [launchArgsFor req.proxy] ∧ s'.caught = false ∧
      s'.closes = 0 ∧ s'.browser = launchOk env ∧
      (launchOk env = true → newPageOk env = true →
        s'.authCalls = authList req.proxy) ∧
      (s'.authCalls = [] ∨ s'.authCalls = authList req.proxy) ∧
      logsTicked env s') ∨
    (∃ r s', tryBody env req {} = Except.ok (r, s') ∧ r.logs = s'.log ∧
      respSpec env r ∧
      s'.launchCalls = [launchArgsFor req.proxy] ∧ s'.caught = false ∧
      s'.browser = true ∧ launchOk env = true ∧
      s'.authCalls = authList req.proxy ∧ logsTicked env s') := by
  unfold tryBody att
  rcases hla : env.launch with m | u
  · refine Or.inl ⟨m, _, rfl, ?_, ?_, ?_, ?_, ?_, ?_, ?_⟩
    · simp
    · rfl
    · rfl
    · simp [launchOk, hla]
    · intro h _
      simp [launchOk, hla] at h
    · exact Or.inl rfl
    · exact logsTicked_addLog env {} _ _ (logsTicked_init env)
  · rcases hnp : env.newPage with m | u2
    · refine Or.inl ⟨m, _, rfl, ?_, ?_, ?_, ?_, ?_, ?_, ?_⟩
      · simp
      · rfl
      · rfl
      · simp [launchOk, hla]
      · intro _ h2
        simp [newPageOk, hnp] at h2
      · exact Or.inl rfl
      · exact logsTicked_addLog env {} _ _ (logsTicked_init env)
    · refine tryBody_assemble (authPhase_spec env req _) ?_ ?_ ?_ ?_ ?_ ?_ ?_
      · simp
      · rfl
      · rfl
      · rfl
      · simp [launchOk, hla]
      · rfl
      · exact logsTicked_addLog env {} _ _ (logsTicked_init env)

/-! ### Handler-level lemmas -/

theorem runCreate_ok {env : Env} {req : CreateRequest} {r : ApiResponse} {s' : St}
    (h : tryBody env req {} = Except.ok (r, s')) :
    runCreate env req = (r, finallyClose s') := by
  unfold runCreate
  rw [h]

theorem runCreate_error {env : Env} {req : CreateRequest} {m : String} {s' : St}
    (h : tryBody env req {} = Except.error (m, s')) :
    runCreate env req = catchBlock env m s' := by
  unfold runCreate
  rw [h]

theorem catchBlock_resp (env : Env) (m : String) (s0 : St) :
    (catchBlock env m s0).1.status = 500 ∧ (catchBlock env m s0).1.success = false ∧
    (catchBlock env m s0).1.error = some m ∧
    (catchBlock env m s0).1.logs =
      s0.log ++ [mkLogRecord ("Critical Error: " ++ m) "error" (env.timeAt s0.tick)] := by
  unfold catchBlock
  refine ⟨rfl, rfl, rfl, ?_⟩
  simp

theorem finallyClose_twice_closes (s : St) :
    (finallyClose (finallyClose s)).closes =
      if s.browser then s.closes + 2 else s.closes := by
  rcases hb : s.browser with _ | _
  · simp [finallyClose, hb]
  · simp [finallyClose, hb]

theorem catchBlock_st (env : Env) (m : String) (s0 : St) :
    (catchBlock env m s0).2.caught = true ∧
    (catchBlock env m s0).2.launchCalls = s0.launchCalls ∧
    (catchBlock env m s0).2.browser = s0.browser ∧
    (catchBlock env m s0).2.authCalls = s0.authCalls ∧
    (catchBlock env m s0).2.closes =
      (if s0.browser then s0.closes + 2 else s0.closes) := by
  have hsnd : (catchBlock env m s0).2 = finallyClose (finallyClose
      (addLog env { s0 with caught := true } ("Critical Error: " ++ m) "error")) := rfl
  rw [hsnd]
  refine ⟨by simp, by simp, by simp, by simp, ?_⟩
  rw [finallyClose_twice_closes]
  simp

theorem catchBlock_logs_good (env : Env) (m : String) (s0 : St)
    (h : logsTicked env s0) : goodLog env (catchBlock env m s0).1.logs := by
  have h2 : logsTicked env
      (addLog env { s0 with caught := true } ("Critical Error: " ++ m) "error") :=
    logsTicked_addLog env _ _ _ h
  have h3 : (catchBlock env m s0).1.logs =
      (addLog env { s0 with caught := true } ("Critical Error: " ++ m) "error").log := by
    unfold catchBlock
    simp
  rw [h3]
  exact h2.2

theorem runCreate_calls (env : Env) (req : CreateRequest) :
    (runCreate env req).2.launchCalls = [launchArgsFor req.proxy] ∧
    (launchOk env = true → newPageOk env = true →
      (runCreate env req).2.authCalls = authList req.proxy) ∧
    ((runCreate env req).2.authCalls = [] ∨
      (runCreate env req).2.authCalls = authList req.proxy) := by
  rcases tryBody_spec env req with
    ⟨m, s', heq, hlc, _, _, _, hcond, hdisj, _⟩ |
    ⟨r, s', heq, _, _, hlc, _, _, _, hac, _⟩
  · rw [runCreate_error heq]
    obtain ⟨_, hc2, _, hc4, _⟩ := catchBlock_st env m s'
    refine ⟨by rw [hc2, hlc], fun h1 h2 => by rw [hc4, hcond h1 h2], ?_⟩
    rcases hdisj with h | h
    · exact Or.inl (by rw [hc4, h])
    · exact Or.inr (by rw [hc4, h])
  · rw [runCreate_ok heq]
    exact ⟨by simp [hlc], fun _ _ => by simp [hac], Or.inr (by simp [hac])⟩

theorem runCreate_logs_good (env : Env) (req : CreateRequest) :
    goodLog env (runCreate env req).1.logs := by
  rcases tryBody_spec env req with
    ⟨m, s', heq, _, _, _, _, _, _, hlt⟩ |
    ⟨r, s', heq, hlogs, _, _, _, _, _, _, hlt⟩
  · rw [runCreate_error heq]
    exact catchBlock_logs_good env m s' hlt
  · rw [runCreate_ok heq]
    show goodLog env r.logs
    rw [hlogs]
    exact hlt.2

/-! ### Proxy-parsing helper lemmas -/

theorem jsSplitColon_empty : jsSplitColon "" = [""] := rfl

theorem proxyTruthy_of_two {p host port : String} {rest : List String}
    (h : jsSplitColon p = host :: port :: rest) : proxyTruthy (some p) = true := by
  by_cases hp : p = ""
  · subst hp
    rw [jsSplitColon_empty] at h
    simp at h
  · simp [proxyTruthy, hp]

theorem launchArgsFor_two {p host port : String} {rest : List String}
    (h : jsSplitColon p = host :: port :: rest) :
    launchArgsFor (some p) =
      baseLaunchArgs ++ ["--proxy-server=" ++ host ++ ":" ++ port] := by
  simp [launchArgsFor, proxyTruthy_of_two h, h]

theorem launchArgsFor_single {p x : String} (h : jsSplitColon p = [x]) :
    launchArgsFor (some p) = baseLaunchArgs := by
  rcases hp : proxyTruthy (some p) with _ | _ <;>
    simp [launchArgsFor, hp, h]

theorem launchArgsFor_none : launchArgsFor none = baseLaunchArgs := rfl

theorem authList_none : authList none = [] := rfl

theorem authList_two {p host port : String} (h : jsSplitColon p = [host, port]) :
    authList (some p) = [] := by
  simp [authList, proxyAuth, proxyTruthy_of_two h, h]

theorem authList_three {p a b c : String} (h : jsSplitColon p = [a, b, c]) :
    authList (some p) = [] := by
  simp [authList, proxyAuth, proxyTruthy_of_two h, h]

theorem authList_four {p a b u pw : String} (h : jsSplitColon p = [a, b, u, pw]) :
    authList (some p) = [(u, pw)] := by
  simp [authList, proxyAuth, proxyTruthy_of_two h, h]

theorem proxyAuth_some {o : Option String} {c : String × String}
    (h : proxyAuth o = some c) :
    ∃ p, o = some p ∧ (jsSplitColon p).length = 4 := by
  rcases o with _ | p
  · simp [proxyAuth] at h
  · refine ⟨p, rfl, ?_⟩
    simp only [proxyAuth] at h
    split at h
    · split at h
      · rename_i heq
        rw [heq]
        rfl
      · cases h
    · cases h

theorem profileStep_fail (env : Env)
    (hFail : ¬(env.typeYear = Except.ok () ∧ env.selectMonth = Except.ok () ∧
      env.typeDay = Except.ok ())) (s : St) :
    profileStep env s =
      addLog env s "Profile inputs varying, attempting fallbacks..." "warning" := by
  unfold profileStep
  rcases hty : env.typeYear with m | u
  · rfl
  · rcases hsm : env.selectMonth with m | u2
    · rfl
    · rcases htd : env.typeDay with m | u3
      · rfl
      · exact absurd ⟨hty, hsm, htd⟩ hFail

/-! ### Claim theorems -/

/-- C1: for every `/api/create` request in which no exception escapes to
the outer handler, `success` is true exactly when the post-submit page
URL contains `download`, `overview` or `account`; otherwise `success` is
false and the failure is attributed to the CAPTCHA message when some
frame URL contains `arkoselabs`, and otherwise to the text of the first
error element (or `"Unknown Error"` when none exists). -/
theorem create_outcome_classification (env : Env) (req : CreateRequest)
    (h : (runCreate env req).2.caught = false) :
    ((runCreate env req).1.success = true ↔
      urlIndicatesSuccess env.pageUrl = true) ∧
    ((runCreate env req).1.success = false →
      (hasArkoseFrame env.frameUrls = true →
        (runCreate env req).1.error = some captchaErrorMsg) ∧
      (hasArkoseFrame env.frameUrls = false →
        (runCreate env req).1.error = some (classifiedErrText env))) := by
  rcases tryBody_spec env req with
    ⟨m, s', heq, _, _, _, _, _, _, _⟩ |
    ⟨r, s', heq, _, hresp, _, _, _, _, _, _⟩
  · rw [runCreate_error heq] at h
    have hc := (catchBlock_st env m s').1
    rw [hc] at h
    cases h
  · have hfst : (runCreate env req).1 = r := by rw [runCreate_ok heq]
    rw [hfst]
    obtain ⟨hst, hiff, he1, he2⟩ := hresp
    refine ⟨hiff, fun hf => ⟨?_, ?_⟩⟩
    · intro ha
      rw [he2 hf]
      unfold classifiedFailureMsg
      rw [ha]
      simp
    · intro ha
      rw [he2 hf]
      unfold classifiedFailureMsg
      rw [ha]
      simp

/-- Witness for C1 at a fully successful concrete run. -/
theorem create_outcome_classification_witness :
    ((runCreate envHappy reqAuthProxy).1.success = true ↔
      urlIndicatesSuccess envHappy.pageUrl = true) ∧
    ((runCreate envHappy reqAuthProxy).1.success = false →
      (hasArkoseFrame envHappy.frameUrls = true →
        (runCreate envHappy reqAuthProxy).1.error = some captchaErrorMsg) ∧
      (hasArkoseFrame envHappy.frameUrls = false →
        (runCreate envHappy reqAuthProxy).1.error =
          some (classifiedErrText envHappy))) :=
  create_outcome_classification envHappy reqAuthProxy (by decide)

/-- C3: per request, `puppeteer.launch` is called exactly once (with the
computed argument list), and a `browser.close()` is attempted on every
exit path exactly when the browser was launched. -/
theorem browser_lifecycle (env : Env) (req : CreateRequest) :
    (runCreate env req).2.launchCalls = [launchArgsFor req.proxy] ∧
    (runCreate env req).2.browser = launchOk env ∧
    ((runCreate env req).2.browser = true → 1 ≤ (runCreate env req).2.closes) ∧
    ((runCreate env req).2.browser = false → (runCreate env req).2.closes = 0) := by
  rcases tryBody_spec env req with
    ⟨m, s', heq, hlc, _, hclo, hbr, _, _, _⟩ |
    ⟨r, s', heq, _, _, hlc, _, hbr, hlo, _, _⟩
  · rw [runCreate_error heq]
    obtain ⟨_, hc2, hc3, _, hc5⟩ := catchBlock_st env m s'
    refine ⟨by rw [hc2, hlc], by rw [hc3, hbr], ?_, ?_⟩
    · intro hb
      rw [hc3] at hb
      rw [hc5, hb]
      simp
    · intro hb
      rw [hc3] at hb
      rw [hc5, hb, hclo]
      simp
  · rw [runCreate_ok heq]
    refine ⟨by simp [hlc], by simp [hbr, hlo], ?_, ?_⟩
    · intro _
      have : (finallyClose s').closes = s'.closes + 1 := by
        rw [finallyClose_closes, hbr]
        simp
      show 1 ≤ (finallyClose s').closes
      omega
    · intro hb
      have : (finallyClose s').browser = true := by
        rw [finallyClose_browser, hbr]
      rw [show ((r, finallyClose s').2.browser) = (finallyClose s').browser from rfl,
        this] at hb
      cases hb

/-- Witness for C3 at a concrete run with a launch failure (no close)
and at the structure of the statement's implications. -/
theorem browser_lifecycle_witness :
    (runCreate envHappy reqNoProxy).2.launchCalls =
      [launchArgsFor reqNoProxy.proxy] ∧
    (runCreate envHappy reqNoProxy).2.browser = launchOk envHappy ∧
    ((runCreate envHappy reqNoProxy).2.browser = true →
      1 ≤ (runCreate envHappy reqNoProxy).2.closes) ∧
    ((runCreate envHappy reqNoProxy).2.browser = false →
      (runCreate envHappy reqNoProxy).2.closes = 0) :=
  browser_lifecycle envHappy reqNoProxy

/-- C5: every response carries the boolean `success` flag and the `logs`
array, and carries an `error` string exactly when `success` is false. -/
theorem response_error_iff_failure (env : Env) (req : CreateRequest) :
    ((runCreate env req).1.error = none ↔ (runCreate env req).1.success = true) := by
  rcases tryBody_spec env req with
    ⟨m, s', heq, _, _, _, _, _, _, _⟩ |
    ⟨r, s', heq, _, hresp, _, _, _, _, _, _⟩
  · rw [runCreate_error heq]
    obtain ⟨_, h2, h3, _⟩ := catchBlock_resp env m s'
    simp [h2, h3]
  · rw [runCreate_ok heq]
    obtain ⟨_, _, he1, he2⟩ := hresp
    rcases hsu : r.success with _ | _
    · have := he2 hsu
      simp [this, hsu]
    · have := he1 hsu
      simp [this, hsu]

/-- C7: `GET /api/status` returns the same constant JSON object for every
request, regardless of input or prior requests. -/
theorem status_endpoint_constant (req1 req2 : List (String × String)) :
    handleStatus req1 =
      [("status", "online"), ("mode", "puppeteer"), ("version", "5.0.0")] ∧
    handleStatus req1 = handleStatus req2 :=
  ⟨rfl, rfl⟩

/-- C10: classified failures are sent with HTTP status 200 and success
false; status 500 is used exactly when an exception escapes to the
outermost catch. -/
theorem http_status_discipline (env : Env) (req : CreateRequest) :
    ((runCreate env req).1.status = 500 ↔ (runCreate env req).2.caught = true) ∧
    ((runCreate env req).2.caught = false → (runCreate env req).1.status = 200) := by
  rcases tryBody_spec env req with
    ⟨m, s', heq, _, _, _, _, _, _, _⟩ |
    ⟨r, s', heq, _, hresp, _, hcau, _, _, _, _⟩
  · rw [runCreate_error heq]
    have h1 := (catchBlock_resp env m s').1
    have hc1 := (catchBlock_st env m s').1
    refine ⟨by simp [h1, hc1], ?_⟩
    intro h
    rw [hc1] at h
    cases h
  · rw [runCreate_ok heq]
    obtain ⟨hst, _, _, _⟩ := hresp
    have hcf : (finallyClose s').caught = false := by
      rw [finallyClose_caught, hcau]
    constructor
    · constructor
      · intro h5
        simp [hst] at h5
      · intro hc
        rw [show ((r, finallyClose s').2.caught) = (finallyClose s').caught from rfl,
          hcf] at hc
        cases hc
    · intro _
      exact hst

/-- Witness for C10 at a concrete run in which an exception escapes to
the outer catch. -/
theorem http_status_discipline_witness :
    ((runCreate envGotoFail reqNoProxy).1.status = 500 ↔
      (runCreate envGotoFail reqNoProxy).2.caught = true) ∧
    ((runCreate envGotoFail reqNoProxy).2.caught = false →
      (runCreate envGotoFail reqNoProxy).1.status = 200) :=
  http_status_discipline envGotoFail reqNoProxy

/-- C2 counterexample: a run in which a signup-sequence step fails (the
birth-year fill rejects) yet the response has `success` true and no
`error` field, and the outermost catch never ran — so not every failure
of the sequence is caught at the outermost level and reported. -/
theorem create_inner_catch_counterexample :
    envProfileFail.typeYear = Except.error "Selector timeout: input#year" ∧
    (runCreate envProfileFail reqAuthProxy).1.success = true ∧
    (runCreate envProfileFail reqAuthProxy).1.error = none ∧
    (runCreate envProfileFail reqAuthProxy).2.caught = false := by
  refine ⟨rfl, ?_⟩
  decide

/-- C2 (amended): every exception that escapes to the outermost catch of
the handler — any failure other than one thrown while filling the
profile inputs, which an inner catch absorbs — is reported as a JSON
response with status 500, success false and error equal to the
exception's message. -/
theorem outer_catch_reports_exception_message (env : Env) (req : CreateRequest)
    (m : String) (h : escapedMsg env req = some m) :
    (runCreate env req).1.status = 500 ∧
    (runCreate env req).1.success = false ∧
    (runCreate env req).1.error = some m := by
  unfold escapedMsg at h
  rcases heq : tryBody env req {} with ⟨m2, s'⟩ | p
  · rw [heq] at h
    simp at h
    rw [runCreate_error heq]
    obtain ⟨h1, h2, h3, _⟩ := catchBlock_resp env m2 s'
    subst h
    exact ⟨h1, h2, h3⟩
  · rw [heq] at h
    simp at h

/-- Witness for the amended C2 at a concrete run whose `page.goto`
rejects. -/
theorem outer_catch_reports_exception_message_witness :
    (runCreate envGotoFail reqAuthProxy).1.status = 500 ∧
    (runCreate envGotoFail reqAuthProxy).1.success = false ∧
    (runCreate envGotoFail reqAuthProxy).1.error = some "net::ERR_TIMED_OUT" :=
  outer_catch_reports_exception_message envGotoFail reqAuthProxy
    "net::ERR_TIMED_OUT" (by decide)

/-- C4: the browser launch arguments and the authenticate call derived
from the optional proxy string. -/
theorem proxy_parsing_and_auth (env : Env) (req : CreateRequest) :
    (req.proxy = none →
      (runCreate env req).2.launchCalls = [baseLaunchArgs] ∧
      (runCreate env req).2.authCalls = []) ∧
    (∀ p host port, req.proxy = some p → jsSplitColon p = [host, port] →
      (runCreate env req).2.launchCalls =
        [baseLaunchArgs ++ ["--proxy-server=" ++ host ++ ":" ++ port]] ∧
      (runCreate env req).2.authCalls = []) ∧
    (∀ p host port u pw, req.proxy = some p →
      jsSplitColon p = [host, port, u, pw] →
      (runCreate env req).2.launchCalls =
        [baseLaunchArgs ++ ["--proxy-server=" ++ host ++ ":" ++ port]] ∧
      (launchOk env = true → newPageOk env = true →
        (runCreate env req).2.authCalls = [(u, pw)])) := by
  obtain ⟨hlc, hcond, hdisj⟩ := runCreate_calls env req
  refine ⟨?_, ?_, ?_⟩
  · intro hp
    constructor
    · rw [hlc, hp, launchArgsFor_none]
    · rcases hdisj with h | h
      · exact h
      · rw [h, hp, authList_none]
  · intro p host port hp hsplit
    constructor
    · rw [hlc, hp, launchArgsFor_two hsplit]
    · rcases hdisj with h | h
      · exact h
      · rw [h, hp, authList_two hsplit]
  · intro p host port u pw hp hsplit
    constructor
    · rw [hlc, hp, launchArgsFor_two hsplit]
    · intro hl hn
      rw [hcond hl hn, hp, authList_four hsplit]

/-- Witness for C4 at a concrete four-part authenticated proxy. -/
theorem proxy_parsing_and_auth_witness :
    (reqAuthProxy.proxy = none →
      (runCreate envHappy reqAuthProxy).2.launchCalls = [baseLaunchArgs] ∧
      (runCreate envHappy reqAuthProxy).2.authCalls = []) ∧
    (∀ p host port, reqAuthProxy.proxy = some p →
      jsSplitColon p = [host, port] →
      (runCreate envHappy reqAuthProxy).2.launchCalls =
        [baseLaunchArgs ++ ["--proxy-server=" ++ host ++ ":" ++ port]] ∧
      (runCreate envHappy reqAuthProxy).2.authCalls = []) ∧
    (∀ p host port u pw, reqAuthProxy.proxy = some p →
      jsSplitColon p = [host, port, u, pw] →
      (runCreate envHappy reqAuthProxy).2.launchCalls =
        [baseLaunchArgs ++ ["--proxy-server=" ++ host ++ ":" ++ port]] ∧
      (launchOk envHappy = true → newPageOk envHappy = true →
        (runCreate envHappy reqAuthProxy).2.authCalls = [(u, pw)])) :=
  proxy_parsing_and_auth envHappy reqAuthProxy

/-- C9: a three-part proxy string adds the proxy argument but never
authenticates; `page.authenticate` happens only for four-part strings;
fewer than two parts add no proxy argument. -/
theorem proxy_three_part_and_auth_condition (env : Env) (req : CreateRequest) :
    (∀ p a b c, req.proxy = some p → jsSplitColon p = [a, b, c] →
      (runCreate env req).2.launchCalls =
        [baseLaunchArgs ++ ["--proxy-server=" ++ a ++ ":" ++ b]] ∧
      (runCreate env req).2.authCalls = []) ∧
    ((runCreate env req).2.authCalls ≠ [] →
      ∃ p, req.proxy = some p ∧ (jsSplitColon p).length = 4) ∧
    (∀ p x, req.proxy = some p → jsSplitColon p = [x] →
      (runCreate env req).2.launchCalls = [baseLaunchArgs]) := by
  obtain ⟨hlc, _, hdisj⟩ := runCreate_calls env req
  refine ⟨?_, ?_, ?_⟩
  · intro p a b c hp hsplit
    constructor
    · rw [hlc, hp, launchArgsFor_two hsplit]
    · rcases hdisj with h | h
      · exact h
      · rw [h, hp, authList_three hsplit]
  · intro hne
    rcases hdisj with h | h
    · exact absurd h hne
    · rw [h] at hne
      rcases hpa : proxyAuth req.proxy with _ | c
      · simp [authList, hpa] at hne
      · exact proxyAuth_some hpa
  · intro p x hp hsplit
    rw [hlc, hp, launchArgsFor_single hsplit]

/-- Witness for C9 at a concrete three-part proxy. -/
theorem proxy_three_part_and_auth_condition_witness :
    (∀ p a b c, reqThreeProxy.proxy = some p → jsSplitColon p = [a, b, c] →
      (runCreate envHappy reqThreeProxy).2.launchCalls =
        [baseLaunchArgs ++ ["--proxy-server=" ++ a ++ ":" ++ b]] ∧
      (runCreate envHappy reqThreeProxy).2.authCalls = []) ∧
    ((runCreate envHappy reqThreeProxy).2.authCalls ≠ [] →
      ∃ p, reqThreeProxy.proxy = some p ∧ (jsSplitColon p).length = 4) ∧
    (∀ p x, reqThreeProxy.proxy = some p → jsSplitColon p = [x] →
      (runCreate envHappy reqThreeProxy).2.launchCalls = [baseLaunchArgs]) :=
  proxy_three_part_and_auth_condition envHappy reqThreeProxy

/-- C6 counterexample: in a concrete run every appended log record has
exactly the fields `message`, `type` and `timestamp` — no record has a
`category` field, so the records are not `{message, category, timestamp}`
objects. -/
theorem log_record_fields_counterexample :
    (runCreate envHappy reqPlainProxy).1.logs.length = 9 ∧
    (runCreate envHappy reqPlainProxy).1.logs.all
      (fun r => !((r.map Prod.fst).contains "category")) = true ∧
    (runCreate envHappy reqPlainProxy).1.logs.all
      (fun r => (r.map Prod.fst) == ["message", "type", "timestamp"]) = true := by
  decide

/-- C6 (amended): every record in the logs array returned to the caller
is a `{message, type, timestamp}` object (the category-like field is
named `type`, not `category`), and the array preserves the order in
which the records were added: the record at index `i` carries the
timestamp taken at the `i`-th `addLog` call. -/
theorem log_record_shape_and_order (env : Env) (req : CreateRequest) (i : Nat)
    (h : i < (runCreate env req).1.logs.length) :
    ∃ msg ty, (runCreate env req).1.logs[i]? =
      some (mkLogRecord msg ty (env.timeAt i)) :=
  runCreate_logs_good env req i h

/-- Witness for the amended C6 at the first record of a concrete run. -/
theorem log_record_shape_and_order_witness :
    ∃ msg ty, (runCreate envHappy reqPlainProxy).1.logs[0]? =
      some (mkLogRecord msg ty (envHappy.timeAt 0)) :=
  log_record_shape_and_order envHappy reqPlainProxy 0 (by decide)

/-- C8: an exception while filling the birth-date profile inputs is
absorbed by the inner catch: the warning record is logged, the flow still
clicks Submit exactly once, and — when the remaining steps resolve — the
outermost catch never runs and the response is not the 500 error path. -/
theorem profile_fill_failure_contained (env : Env) (req : CreateRequest)
    (hL : env.launch = Except.ok ()) (hN : env.newPage = Except.ok ())
    (hA : env.authenticate = Except.ok ()) (hG : env.gotoSignup = Except.ok ())
    (hWE : env.waitEmail = Except.ok ()) (hTE : env.typeEmail = Except.ok ())
    (hQ : ∃ b, env.queryNextBtn = Except.ok b)
    (hCN : env.clickNext = Except.ok ())
    (hWP : env.waitPassword = Except.ok ())
    (hTP : env.typePassword = Except.ok ())
    (hCS : env.clickSubmit = Except.ok ())
    (hQE : ∃ found, env.queryErrorEl = Except.ok found)
    (hEV : ∃ t, env.evalErrorText = Except.ok t)
    (hFail : ¬(env.typeYear = Except.ok () ∧ env.selectMonth = Except.ok () ∧
      env.typeDay = Except.ok ())) :
    (∃ ts, mkLogRecord "Profile inputs varying, attempting fallbacks..." "warning" ts
      ∈ (runCreate env req).2.log) ∧
    (runCreate env req).2.submitAttempts = 1 ∧
    (runCreate env req).2.caught = false ∧
    (runCreate env req).1.status = 200 := by
  obtain ⟨b, hQ⟩ := hQ
  obtain ⟨found, hQE⟩ := hQE
  obtain ⟨t0, hEV⟩ := hEV
  rcases hpa : proxyAuth req.proxy with _ | ⟨u, pw⟩ <;>
    cases b <;>
    rcases hmk : urlIndicatesSuccess env.pageUrl with _ | _ <;>
    cases found <;>
    rcases hak : hasArkoseFrame env.frameUrls with _ | _ <;>
    refine ⟨⟨env.timeAt 6, ?_⟩, ?_, ?_, ?_⟩ <;>
    simp [runCreate, tryBody, authPhase, mainFlow, afterNext, classify, att,
      profileStep_fail env hFail, hpa, hL, hN, hA, hG, hWE, hTE, hQ, hCN, hWP,
      hTP, hCS, hQE, hEV, hmk, hak, mkLogRecord, finallyClose]

/-- Witness for C8 at a concrete run whose birth-year fill rejects and
all other steps resolve. -/
theorem profile_fill_failure_contained_witness :
    (∃ ts, mkLogRecord "Profile inputs varying, attempting fallbacks..." "warning" ts
      ∈ (runCreate envProfileFail reqNoProxy).2.log) ∧
    (runCreate envProfileFail reqNoProxy).2.submitAttempts = 1 ∧
    (runCreate envProfileFail reqNoProxy).2.caught = false ∧
    (runCreate envProfileFail reqNoProxy).1.status = 200 :=
  profile_fill_failure_contained envProfileFail reqNoProxy rfl rfl rfl rfl rfl rfl
    ⟨true, rfl⟩ rfl rfl rfl rfl ⟨false, rfl⟩ ⟨"text", rfl⟩
    (fun h => Except.noConfusion h.1)
